import Mathlib

/-
Verification of the scout network scanner.

Shallow embedding of the pure content of src/limits.rs, src/scan.rs and
src/fingerprint.rs. Network and process I/O (TCP connects, the external ping
invocation, the banner reads) are modelled by explicit oracle parameters:
`probe` gives the outcome of `scan_one` per work item, `http_banner` and
`ssh_banner` give the outcome of the two banner probes per port, and the ping
invocation is a value of type `Option (Bool × String)` (process failure, or
exit status plus captured stdout). Machine integers are modelled as `Nat`
with explicit saturation / wrap-around where the Rust code can reach it.
-/

namespace Scout

/-- IPv4 addresses are represented by their 32-bit numeric value (a `Nat`);
address order on `Ipv4Addr` is exactly numeric order on this value. Ports
(u16 in the Rust code) are also plain `Nat`s. `mkIp` gives the numeric value
of the dotted quad a.b.c.d. -/
def mkIp (a b c d : Nat) : Nat := ((a * 256 + b) * 256 + c) * 256 + d

/-- src/scan.rs: `type ScanItem = (Ipv4Addr, u16)`. -/
abbrev ScanItem := Nat × Nat

/-- src/scan.rs: `type ScanResult = (Ipv4Addr, u16, bool)`. -/
abbrev ScanResult := Nat × Nat × Bool

/-! ## src/limits.rs -/

/-- `usize::MAX` on a 64-bit host; `saturating_mul` saturates here. -/
def usizeMax : Nat := 18446744073709551615

/-- src/limits.rs `compute_concurrency`, with the logical CPU count
(`num_cpus::get()`) passed explicitly: `num_cpus.saturating_mul(64).min(4096)`. -/
def compute_concurrency (num_cpus : Nat) : Nat :=
  min (min (num_cpus * 64) usizeMax) 4096

/-- src/limits.rs `compute_channel_size`: `(concurrency * 4).clamp(256, 16_384)`.
Release-mode `usize` multiplication wraps modulo 2^64, hence the `%`. -/
def compute_channel_size (concurrency : Nat) : Nat :=
  if concurrency * 4 % (usizeMax + 1) < 256 then 256
  else if concurrency * 4 % (usizeMax + 1) > 16384 then 16384
  else concurrency * 4 % (usizeMax + 1)

/-! ## src/scan.rs: target expansion -/

/-- src/scan.rs `build_scan_items`: the nested loop
`for host in hosts { for &port in &ports_vec { scan_items.push((host, port)) } }`. -/
def build_scan_items (hosts : List Nat) (ports : List Nat) : List ScanItem :=
  hosts.foldl
    (fun scan_items host =>
      ports.foldl (fun scan_items port => scan_items ++ [(host, port)]) scan_items)
    []

/-- The Rust range `start..=end` as the ascending list of ports
(empty when start > end). -/
def port_range (start end_ : Nat) : List Nat :=
  (List.range (end_ + 1 - start)).map (· + start)

/-- Split a character list at every occurrence of the separator, keeping empty
segments, like Rust's `str::split` on a single character. -/
def splitOnChar (c : Char) : List Char → List (List Char)
  | [] => [[]]
  | x :: xs =>
    if x = c then [] :: splitOnChar c xs
    else
      match splitOnChar c xs with
      | h :: t => (x :: h) :: t
      | [] => [[x]]

/-- Decimal value of a digit list. -/
def digitsVal (l : List Char) : Nat := l.foldl (fun a c => a * 10 + (c.toNat - 48)) 0

/-- One dotted-quad octet per Rust's `Ipv4Addr` parser: one or more digits,
value at most 255, no leading zero (a lone "0" is allowed). -/
def parse_octet (l : List Char) : Option Nat :=
  if l = [] then none
  else if ¬ l.all Char.isDigit then none
  else if l.length > 1 ∧ l.headD ' ' = '0' then none
  else if digitsVal l ≤ 255 then some (digitsVal l) else none

/-- Rust's `Ipv4Addr::from_str`: exactly four dot-separated octets,
nothing else. Domain names never parse. -/
def parse_ipv4_chars (l : List Char) : Option Nat :=
  match (splitOnChar '.' l).map parse_octet with
  | [some a, some b, some c, some d] => some (mkIp a b c d)
  | _ => none

/-- `target.parse::<Ipv4Addr>()`. -/
def parse_ipv4 (s : String) : Option Nat := parse_ipv4_chars s.data

/-- Rust's `u8::from_str` (used by the cidr crate for the network length):
optional leading '+', one or more digits, value at most 255. -/
def parse_u8 (l : List Char) : Option Nat :=
  let l' := match l with
    | '+' :: rest => rest
    | other => other
  if l' = [] then none
  else if ¬ l'.all Char.isDigit then none
  else if digitsVal l' ≤ 255 then some (digitsVal l') else none

/-- An IPv4 CIDR block of the cidr crate: network address (host bits zero)
plus network length at most 32. -/
structure Ipv4Cidr where
  addr : Nat
  len : Nat
deriving DecidableEq

/-- The cidr crate's `Ipv4Cidr::from_str`: "addr/len" with len ≤ 32 and all
host bits of addr zero, or a bare address, read as a full-length /32 network. -/
def parse_ipv4_cidr (s : String) : Option Ipv4Cidr :=
  match splitOnChar '/' s.data with
  | [addr_part] => (parse_ipv4_chars addr_part).map (fun ip => ⟨ip, 32⟩)
  | [addr_part, len_part] =>
    match parse_ipv4_chars addr_part, parse_u8 len_part with
    | some ip, some len =>
      if len ≤ 32 ∧ ip % 2 ^ (32 - len) = 0 then some ⟨ip, len⟩ else none
    | _, _ => none
  | _ => none

/-- The cidr crate's `Cidr::iter()` (composed with `.address()` as in
src/scan.rs): every address of the block in ascending order, the network and
broadcast addresses included. -/
def cidr_hosts (c : Ipv4Cidr) : List Nat :=
  (List.range (2 ^ (32 - c.len))).map (c.addr + ·)

/-- src/scan.rs `build_target_scan_items`: try a single IPv4 address, else an
IPv4 CIDR block, else fail. -/
def build_target_scan_items (target : String) (start end_ : Nat) :
    Except String (List ScanItem) :=
  match parse_ipv4 target with
  | some ip => .ok (build_scan_items [ip] (port_range start end_))
  | none =>
    match parse_ipv4_cidr target with
    | some cidr => .ok (build_scan_items (cidr_hosts cidr) (port_range start end_))
    | none => .error "Target not supported; supply IP address or CIDR"

/-! ## src/scan.rs: the scan engine -/

/-- The result each scan task publishes for its item, `probe` being the
outcome of `scan_one` (connect success within the 500 ms deadline). -/
def scan_results (items : List ScanItem) (probe : ScanItem → Bool) : List ScanResult :=
  items.map (fun item => (item.1, item.2, probe item))

/-- src/scan.rs `spawn`, as a function of the connect oracle. The `Scanner`'s
receiver, drained to exhaustion, is modelled by the list of published results;
one task is spawned per item and each task publishes exactly one result, so a
draining consumer receives some completion-order permutation of this list. -/
def spawn (scan_items : List ScanItem) (concurrency channel_size : Nat)
    (probe : ScanItem → Bool) : Except String (Nat × List ScanResult) :=
  if scan_items.length = 0 then .error "No items to scan"
  else .ok (scan_items.length, scan_results scan_items probe)

/-- Trace of one spawned scan task body (src/scan.rs lines 70-75). -/
structure TaskTrace where
  acquired_permit : Bool
  published : Bool
  send_err_raised : Bool
  permit_released : Bool
  completed : Bool

/-- One scan task body, as a function of whether the consumer still holds the
receiver when the task sends. The body is straight-line: acquire a permit,
probe, send — with the send's result discarded by `let _ = tx.send(..)` — and
drop the permit; a dead receiver makes the send fail, which is ignored. -/
def scan_task (probe : ScanItem → Bool) (receiver_alive : Bool) (item : ScanItem) :
    TaskTrace × Option ScanResult :=
  ({ acquired_permit := true
     published := receiver_alive
     send_err_raised := false
     permit_released := true
     completed := true },
   if receiver_alive then some (item.1, item.2, probe item) else none)

/-! ## src/fingerprint.rs -/

/-- src/fingerprint.rs `ttl`: the match mapping the parsed reply TTL (a u8)
to its default-TTL base and OS guess. -/
def ttl_base_os (ttl : Nat) : Nat × String :=
  if 1 ≤ ttl ∧ ttl ≤ 64 then (64, "likely Linux/macOS/iOS")
  else if 65 ≤ ttl ∧ ttl ≤ 128 then (128, "likely Windows")
  else (255, "likely network gear/other")

/-- src/fingerprint.rs `ttl`: `base.saturating_sub(ttl)`; truncated `Nat`
subtraction is exactly saturating subtraction. -/
def ttl_hops (ttl : Nat) : Nat := (ttl_base_os ttl).1 - ttl

/-- src/fingerprint.rs `ttl`: the hint string
"<ttl> (<os_guess>[, <hops> hop(s) away])". -/
def ttl_hint (ttl : Nat) : String :=
  let os_guess := (ttl_base_os ttl).2
  let hops := ttl_hops ttl
  let hint := if hops = 0 then os_guess
    else os_guess ++ ", " ++ toString hops ++ " hop(s) away"
  toString ttl ++ " (" ++ hint ++ ")"

/-- Split at every character satisfying the predicate, keeping empty segments. -/
def splitWhen (p : Char → Bool) : List Char → List (List Char)
  | [] => [[]]
  | x :: xs =>
    if p x then [] :: splitWhen p xs
    else
      match splitWhen p xs with
      | h :: t => (x :: h) :: t
      | [] => [[x]]

/-- Rust's `str::split_whitespace`: maximal non-whitespace tokens. -/
def whitespace_tokens (l : List Char) : List (List Char) :=
  (splitWhen Char.isWhitespace l).filter (· ≠ [])

/-- Per token: `segment.strip_prefix("ttl=").and_then(|v| v.parse::<u8>().ok())`. -/
def token_ttl (tok : List Char) : Option Nat :=
  match tok with
  | 't' :: 't' :: 'l' :: '=' :: rest => parse_u8 rest
  | _ => none

/-- src/fingerprint.rs `ttl`: the first "ttl=<u8>" token of the ping stdout. -/
def extract_ttl (stdout : String) : Option Nat :=
  (whitespace_tokens stdout.data).findSome? token_ttl

/-- src/fingerprint.rs `ttl`, as a function of the ping invocation's outcome:
`none` models a process spawn failure, `some (ok, stdout)` a completed run
with its exit status and captured stdout. -/
def ttl (ping : Option (Bool × String)) : Option String :=
  match ping with
  | none => none
  | some (ok, stdout) =>
    if ok then (extract_ttl stdout).map ttl_hint else none

/-- The HTTP-like port set of src/fingerprint.rs `services`
(the `80 | 8000 | 8080 | 8443 | 443` match arm). -/
def http_ports : List Nat := [80, 8000, 8080, 8443, 443]

/-- src/fingerprint.rs `services`, as a function of the banner oracles (the
outcomes of `http_banner` and `ssh_banner` per port): iterate the open ports
in order, probe each according to its match arm, append only `some` captures. -/
def services (http_banner ssh_banner : Nat → Option String)
    (open_ports : List Nat) : List String :=
  open_ports.foldl
    (fun results port =>
      match
        (if port ∈ http_ports then http_banner port
         else if port = 22 then ssh_banner port
         else none) with
      | some banner => results ++ [banner]
      | none => results)
    []

/-- Modelled from the spec: the banner ordering the spec asserts — all HTTP
banners in open-port order first, then the SSH banner. Stated for comparison
with `services`, which is translated from the source. -/
def services_spec_order (http_banner ssh_banner : Nat → Option String)
    (open_ports : List Nat) : List String :=
  ((open_ports.filter (fun p => p ∈ http_ports)).filterMap http_banner)
    ++ ((open_ports.filter (fun p => p = 22)).filterMap ssh_banner)

/-! ## Helper lemmas -/

lemma foldl_push_ports (host : Nat) (ports : List Nat) (acc : List ScanItem) :
    ports.foldl (fun scan_items port => scan_items ++ [(host, port)]) acc
      = acc ++ ports.map (fun p => (host, p)) := by
  induction ports generalizing acc with
  | nil => simp
  | cons p ps ih => simp [ih]

lemma build_scan_items_eq_flatMap (hosts : List Nat) (ports : List Nat) :
    build_scan_items hosts ports
      = hosts.flatMap (fun h => ports.map (fun p => (h, p))) := by
  suffices h : ∀ acc : List ScanItem,
      hosts.foldl
        (fun scan_items host =>
          ports.foldl (fun scan_items port => scan_items ++ [(host, port)]) scan_items)
        acc
      = acc ++ hosts.flatMap (fun h => ports.map (fun p => (h, p))) by
    simpa [build_scan_items] using h []
  induction hosts with
  | nil => simp
  | cons h hs ih =>
    intro acc
    rw [List.foldl_cons, foldl_push_ports, ih]
    simp

lemma build_scan_items_length (hosts : List Nat) (ports : List Nat) :
    (build_scan_items hosts ports).length = hosts.length * ports.length := by
  rw [build_scan_items_eq_flatMap]
  induction hosts with
  | nil => simp
  | cons h hs ih => simp [ih]; ring

lemma port_range_mem (start end_ p : Nat) :
    p ∈ port_range start end_ ↔ start ≤ p ∧ p ≤ end_ := by
  simp only [port_range, List.mem_map, List.mem_range]
  constructor
  · rintro ⟨i, hi, rfl⟩; omega
  · rintro ⟨h1, h2⟩; exact ⟨p - start, by omega, by omega⟩

lemma port_range_ascending (start end_ : Nat) :
    (port_range start end_).Pairwise (· < ·) := by
  refine List.pairwise_map.mpr (List.Pairwise.imp ?_ (List.pairwise_lt_range _))
  intro a b h
  show a + start < b + start
  omega

lemma cidr_hosts_ascending (c : Ipv4Cidr) :
    (cidr_hosts c).Pairwise (· < ·) := by
  refine List.pairwise_map.mpr (List.Pairwise.imp ?_ (List.pairwise_lt_range _))
  intro a b h
  show c.addr + a < c.addr + b
  omega

lemma scan_results_proj (items : List ScanItem) (probe : ScanItem → Bool) :
    (scan_results items probe).map (fun r => (r.1, r.2.1)) = items := by
  have hcomp :
      ((fun r : ScanResult => (r.1, r.2.1)) ∘ fun item : ScanItem => (item.1, item.2, probe item))
        = id := by
    funext item; rfl
  simp [scan_results, List.map_map, hcomp]

lemma foldl_append_filterMap (g : Nat → Option String) (l : List Nat)
    (acc : List String) :
    l.foldl
      (fun results port =>
        match g port with
        | some banner => results ++ [banner]
        | none => results)
      acc
      = acc ++ l.filterMap g := by
  induction l generalizing acc with
  | nil => simp
  | cons p ps ih =>
    cases hg : g p <;> simp [List.foldl_cons, hg, ih]

/-! ## Claim C1 -/

/-- Claim C1: for every non-empty work-item sequence, the scan engine emits
exactly one result per submitted item — any stream a draining consumer
receives is a permutation of one result per item, with the open flag given by
the probe — and the advertised total equals the input length, so the number of
results received equals the advertised total. -/
theorem scan_engine_exactly_one_result
    (items : List ScanItem) (concurrency channel_size : Nat) (probe : ScanItem → Bool)
    (total : Nat) (sent out : List ScanResult)
    (hne : items ≠ [])
    (hspawn : spawn items concurrency channel_size probe = .ok (total, sent))
    (hdrain : out.Perm sent) :
    total = items.length ∧
    out.length = total ∧
    (out.map (fun r => (r.1, r.2.1))).Perm items ∧
    ∀ r ∈ out, r.2.2 = probe (r.1, r.2.1) := by
  have hlen : ¬ items.length = 0 := fun h => hne (List.length_eq_zero.mp h)
  rw [spawn, if_neg hlen] at hspawn
  simp only [Except.ok.injEq, Prod.mk.injEq] at hspawn
  obtain ⟨htot, hsent⟩ := hspawn
  subst htot
  subst hsent
  refine ⟨rfl, ?_, ?_, ?_⟩
  · rw [hdrain.length_eq, scan_results, List.length_map]
  · have h := hdrain.map (fun r : ScanResult => (r.1, r.2.1))
    rwa [scan_results_proj] at h
  · intro r hr
    have hr' : r ∈ scan_results items probe := hdrain.mem_iff.mp hr
    obtain ⟨⟨h, p⟩, hmem, rfl⟩ := List.mem_map.mp hr'
    rfl

theorem scan_engine_exactly_one_result_witness :
    ([(mkIp 10 0 0 5, 80)] : List ScanItem) ≠ [] ∧
    1 = ([(mkIp 10 0 0 5, 80)] : List ScanItem).length ∧
    ([(mkIp 10 0 0 5, 80, false)] : List ScanResult).length = 1 ∧
    (([(mkIp 10 0 0 5, 80, false)] : List ScanResult).map (fun r => (r.1, r.2.1))).Perm
      [(mkIp 10 0 0 5, 80)] := by
  have h := scan_engine_exactly_one_result [(mkIp 10 0 0 5, 80)] 64 256 (fun _ => false)
    1 [(mkIp 10 0 0 5, 80, false)] [(mkIp 10 0 0 5, 80, false)]
    (by decide) rfl (List.Perm.refl _)
  exact ⟨by decide, h.1, h.2.1, h.2.2.1⟩

/-! ## Claim C2 -/

/-- Claim C2: `build_scan_items` is exactly the host-major, port-minor
cartesian product of its inputs, of length |hosts|·|ports|, and it is a pure
function, so identical inputs give identical ordered output; on a successful
target expansion the items are that product over the parsed host list — a
single address, or the CIDR's address enumeration, in ascending address
order — and the ascending inclusive port range [start, end]. -/
theorem target_expansion_cartesian_product
    (hosts ports : List Nat) (target : String) (start end_ : Nat)
    (items : List ScanItem)
    (hok : build_target_scan_items target start end_ = .ok items) :
    build_scan_items hosts ports = hosts.flatMap (fun h => ports.map (fun p => (h, p))) ∧
    (build_scan_items hosts ports).length = hosts.length * ports.length ∧
    (port_range start end_).Pairwise (· < ·) ∧
    (∀ p, p ∈ port_range start end_ ↔ start ≤ p ∧ p ≤ end_) ∧
    ∃ hs, items = build_scan_items hs (port_range start end_) ∧
      hs.Pairwise (· < ·) ∧
      ((∃ ip, parse_ipv4 target = some ip ∧ hs = [ip]) ∨
       (∃ c, parse_ipv4_cidr target = some c ∧ hs = cidr_hosts c)) := by
  refine ⟨build_scan_items_eq_flatMap hosts ports, build_scan_items_length hosts ports,
    port_range_ascending start end_, fun p => port_range_mem start end_ p, ?_⟩
  rw [build_target_scan_items] at hok
  cases hip : parse_ipv4 target with
  | some ip =>
    rw [hip] at hok
    simp only [Except.ok.injEq] at hok
    exact ⟨[ip], hok.symm, List.pairwise_singleton .., Or.inl ⟨ip, rfl, rfl⟩⟩
  | none =>
    rw [hip] at hok
    cases hc : parse_ipv4_cidr target with
    | some c =>
      rw [hc] at hok
      simp only [Except.ok.injEq] at hok
      exact ⟨cidr_hosts c, hok.symm, cidr_hosts_ascending c, Or.inr ⟨c, rfl, rfl⟩⟩
    | none =>
      rw [hc] at hok
      exact absurd hok (by simp)

theorem target_expansion_cartesian_product_witness :
    build_scan_items [mkIp 10 0 0 5] [80]
      = [mkIp 10 0 0 5].flatMap (fun h => [80].map (fun p => (h, p))) ∧
    (build_scan_items [mkIp 10 0 0 5] [80]).length
      = [mkIp 10 0 0 5].length * ([80] : List Nat).length ∧
    (port_range 20 25).Pairwise (· < ·) := by
  have h := target_expansion_cartesian_product [mkIp 10 0 0 5] [80] "10.0.0.5" 20 25
    [(mkIp 10 0 0 5, 20), (mkIp 10 0 0 5, 21), (mkIp 10 0 0 5, 22),
     (mkIp 10 0 0 5, 23), (mkIp 10 0 0 5, 24), (mkIp 10 0 0 5, 25)] rfl
  exact ⟨h.1, h.2.1, h.2.2.1⟩

/-! ## Claim C3 -/

/-- Claim C3: the TTL probe maps TTL 1..=64 to base 64 and the
Linux/macOS/iOS guess, 65..=128 to base 128 and the Windows guess, any other
u8 TTL to base 255 and the network-gear guess; the hop distance equals
max(0, base − TTL); the hint string is "<ttl> (<os-guess>[, <hops> hop(s)
away])" with the hop clause omitted at zero hops; and the four quoted
instances evaluate as stated. -/
theorem ttl_mapping (t : Nat) (ht : t ≤ 255) :
    (1 ≤ t ∧ t ≤ 64 → ttl_base_os t = (64, "likely Linux/macOS/iOS")) ∧
    (65 ≤ t ∧ t ≤ 128 → ttl_base_os t = (128, "likely Windows")) ∧
    (t = 0 ∨ 129 ≤ t → ttl_base_os t = (255, "likely network gear/other")) ∧
    ttl_hops t = (max 0 (((ttl_base_os t).1 : Int) - (t : Int))).toNat ∧
    ttl_hint t = toString t ++ " (" ++
      (if ttl_hops t = 0 then (ttl_base_os t).2
       else (ttl_base_os t).2 ++ ", " ++ toString (ttl_hops t) ++ " hop(s) away") ++ ")" ∧
    ttl_hint 64 = "64 (likely Linux/macOS/iOS)" ∧
    ttl_hint 48 = "48 (likely Linux/macOS/iOS, 16 hop(s) away)" ∧
    ttl_hint 128 = "128 (likely Windows)" ∧
    ttl_hint 200 = "200 (likely network gear/other, 55 hop(s) away)" := by
  refine ⟨?_, ?_, ?_, ?_, rfl, by decide, by decide, by decide, by decide⟩
  · rintro ⟨h1, h2⟩
    rw [ttl_base_os, if_pos ⟨h1, h2⟩]
  · rintro ⟨h1, h2⟩
    rw [ttl_base_os, if_neg (by omega), if_pos ⟨h1, h2⟩]
  · intro h
    rw [ttl_base_os, if_neg (by omega), if_neg (by omega)]
  · rw [ttl_hops, ttl_base_os]
    split_ifs <;> dsimp only <;> omega

theorem ttl_mapping_witness :
    200 ≤ 255 ∧
    ttl_hops 200 = (max 0 (((ttl_base_os 200).1 : Int) - (200 : Int))).toNat ∧
    ttl_hint 200 = "200 (likely network gear/other, 55 hop(s) away)" := by
  have h := ttl_mapping 200 (by decide)
  exact ⟨by decide, h.2.2.2.1, h.2.2.2.2.2.2.2.2⟩

/-! ## Claim C4 -/

def c4_http_oracle : Nat → Option String := fun p => some ("HTTP:" ++ toString p)

def c4_ssh_oracle : Nat → Option String := fun _ => some "SSH:22 OpenSSH"

/-- Claim C4 counterexample: with open ports [22, 80] and both probes
capturing, the service list is SSH-then-HTTP — following open-port order —
not the all-HTTP-first order the claim states. -/
theorem services_order_counterexample :
    services c4_http_oracle c4_ssh_oracle [22, 80] = ["SSH:22 OpenSSH", "HTTP:80"] ∧
    services_spec_order c4_http_oracle c4_ssh_oracle [22, 80]
      = ["HTTP:80", "SSH:22 OpenSSH"] ∧
    services c4_http_oracle c4_ssh_oracle [22, 80]
      ≠ services_spec_order c4_http_oracle c4_ssh_oracle [22, 80] :=
  ⟨by decide, by decide, by decide⟩

/-- Claim C4 (amended): the banner list contains exactly the non-empty
captures, in open-port order (not HTTP-first), each open port probed by the
protocol its match arm selects — HTTP-like ports {80, 8000, 8080, 8443, 443}
by the HTTP probe, port 22 by the SSH probe — and every other port
contributes no banner. -/
theorem services_in_open_port_order
    (http_banner ssh_banner : Nat → Option String) (open_ports : List Nat) :
    services http_banner ssh_banner open_ports
      = open_ports.filterMap (fun port =>
          if port ∈ http_ports then http_banner port
          else if port = 22 then ssh_banner port
          else none) := by
  rw [services]
  exact (foldl_append_filterMap _ open_ports []).trans (by simp)

/-! ## Claim C5 -/

/-- Claim C5 counterexample: the /30 target expands to 4 work items — the
cidr crate iterates every address of the block, network and broadcast
included — not to the 2 usable hosts the claim states. -/
theorem cidr_slash30_counterexample :
    (build_target_scan_items "192.168.1.0/30" 80 80).map List.length = .ok 4 ∧
    (4 : Nat) ≠ 2 :=
  ⟨rfl, by decide⟩

/-- Claim C5 (amended): expanding "192.168.1.0/30" with the single port 80
yields exactly 4 work items, one per address of the /30 block (network and
broadcast addresses included), in ascending host-address order. -/
theorem cidr_slash30_expansion :
    build_target_scan_items "192.168.1.0/30" 80 80 =
      .ok [(mkIp 192 168 1 0, 80), (mkIp 192 168 1 1, 80),
           (mkIp 192 168 1 2, 80), (mkIp 192 168 1 3, 80)] := rfl

/-! ## Claim C6 -/

/-- Claim C6 counterexample: an expansion yielding zero items (valid address,
inverted port range) makes the target expander return Ok with an empty list —
the expander itself raises no Empty Target Set error. -/
theorem empty_expansion_expander_succeeds :
    build_target_scan_items "10.0.0.5" 25 20 = .ok [] ∧
    (build_target_scan_items "10.0.0.5" 25 20).isOk = true :=
  ⟨rfl, rfl⟩

/-- Claim C6 (amended): when expansion yields zero items the expander returns
the empty sequence, and it is `scan::spawn` that fails — with the
"No items to scan" Empty Target Set error, surfaced to the caller — before
any scan task is spawned. -/
theorem empty_target_set_failure
    (target : String) (start end_ concurrency channel_size : Nat)
    (probe : ScanItem → Bool) (items : List ScanItem)
    (hok : build_target_scan_items target start end_ = .ok items)
    (hempty : items = []) :
    spawn items concurrency channel_size probe = .error "No items to scan" := by
  subst hempty
  rfl

theorem empty_target_set_failure_witness :
    spawn ([] : List ScanItem) 64 256 (fun _ => false) = .error "No items to scan" :=
  empty_target_set_failure "10.0.0.5" 25 20 64 256 (fun _ => false) [] rfl rfl

/-! ## Claim C7 -/

/-- Claim C7: target parsing tries a single IPv4 address first, then an IPv4
CIDR block, and otherwise fails with the Unsupported Target message — the
only error the expander ever returns; both parsers are pure (no DNS), and a
domain name such as "example.com" is accepted by neither. -/
theorem target_parsing_order (target : String) (start end_ : Nat) :
    (∀ ip, parse_ipv4 target = some ip →
      build_target_scan_items target start end_
        = .ok (build_scan_items [ip] (port_range start end_))) ∧
    (∀ c, parse_ipv4 target = none → parse_ipv4_cidr target = some c →
      build_target_scan_items target start end_
        = .ok (build_scan_items (cidr_hosts c) (port_range start end_))) ∧
    (parse_ipv4 target = none → parse_ipv4_cidr target = none →
      build_target_scan_items target start end_
        = .error "Target not supported; supply IP address or CIDR") ∧
    (∀ msg, build_target_scan_items target start end_ = .error msg →
      parse_ipv4 target = none ∧ parse_ipv4_cidr target = none ∧
      msg = "Target not supported; supply IP address or CIDR") ∧
    parse_ipv4 "example.com" = none ∧ parse_ipv4_cidr "example.com" = none := by
  refine ⟨?_, ?_, ?_, ?_, by decide, by decide⟩
  · intro ip hip
    rw [build_target_scan_items, hip]
  · intro c hip hc
    rw [build_target_scan_items, hip, hc]
  · intro hip hc
    rw [build_target_scan_items, hip, hc]
  · intro msg hmsg
    rw [build_target_scan_items] at hmsg
    cases hip : parse_ipv4 target with
    | some ip =>
      rw [hip] at hmsg
      exact absurd hmsg (by simp)
    | none =>
      rw [hip] at hmsg
      cases hc : parse_ipv4_cidr target with
      | some c =>
        rw [hc] at hmsg
        exact absurd hmsg (by simp)
      | none =>
        rw [hc] at hmsg
        simp only [Except.error.injEq] at hmsg
        exact ⟨rfl, rfl, hmsg.symm⟩

theorem target_parsing_order_witness :
    build_target_scan_items "example.com" 1 1024
      = .error "Target not supported; supply IP address or CIDR" :=
  (target_parsing_order "example.com" 1 1024).2.2.1 (by decide) (by decide)

/-! ## Claim C8 -/

/-- Claim C8: with the CPU count passed explicitly, max_in_flight =
min(64·C, 4096) for every C; channel_capacity = clamp(4·X, 256, 16384) for
every concurrency X whose Rust product 4·X fits in usize (in particular for
every value `compute_concurrency` can produce); and the quoted values at
C = 1, 64, 65 and 1000. Both are total functions — pure, never failing. -/
theorem concurrency_budget_formulas (num_cpus X : Nat)
    (hc : 1 ≤ num_cpus) (hx : 4 * X ≤ usizeMax) :
    compute_concurrency num_cpus = min (64 * num_cpus) 4096 ∧
    compute_channel_size X = min (max (4 * X) 256) 16384 ∧
    compute_channel_size (compute_concurrency num_cpus)
      = min (max (4 * compute_concurrency num_cpus) 256) 16384 ∧
    compute_concurrency 1 = 64 ∧ compute_concurrency 64 = 4096 ∧
    compute_concurrency 65 = 4096 ∧ compute_concurrency 1000 = 4096 := by
  refine ⟨?_, ?_, ?_, by decide, by decide, by decide, by decide⟩
  · simp only [compute_concurrency, usizeMax]
    omega
  · simp only [compute_channel_size, usizeMax] at *
    split_ifs <;> omega
  · simp only [compute_channel_size, compute_concurrency, usizeMax]
    split_ifs <;> omega

theorem concurrency_budget_formulas_witness :
    1 ≤ 1 ∧ 4 * 64 ≤ usizeMax ∧
    compute_concurrency 1 = min (64 * 1) 4096 ∧
    compute_channel_size 64 = min (max (4 * 64) 256) 16384 :=
  ⟨by decide, by decide, (concurrency_budget_formulas 1 64 (by decide) (by decide)).1,
   (concurrency_budget_formulas 1 64 (by decide) (by decide)).2.1⟩

/-! ## Claim C9 -/

/-- Claim C9: for every CPU count at least 1, the budget pair obtained by
feeding `compute_concurrency` into `compute_channel_size` has two positive
components and channel_capacity ≥ max_in_flight. -/
theorem concurrency_budget_invariant (num_cpus : Nat) (hc : 1 ≤ num_cpus) :
    0 < compute_concurrency num_cpus ∧
    0 < compute_channel_size (compute_concurrency num_cpus) ∧
    compute_concurrency num_cpus ≤ compute_channel_size (compute_concurrency num_cpus) := by
  simp only [compute_concurrency, compute_channel_size, usizeMax]
  split_ifs <;> omega

theorem concurrency_budget_invariant_witness :
    1 ≤ 1 ∧
    (0 < compute_concurrency 1 ∧
     0 < compute_channel_size (compute_concurrency 1) ∧
     compute_concurrency 1 ≤ compute_channel_size (compute_concurrency 1)) :=
  ⟨by decide, concurrency_budget_invariant 1 (by decide)⟩

/-! ## Claim C10 -/

/-- Claim C10: when the receiver has been dropped, a scan task still runs to
completion: the failed send is silently discarded rather than raised as an
error, the admission permit is still released, and the result reaches nobody;
only with a live (draining) receiver is the task's one result delivered. -/
theorem dropped_receiver_task_completion (probe : ScanItem → Bool) (item : ScanItem) :
    (scan_task probe false item).1.completed = true ∧
    (scan_task probe false item).1.send_err_raised = false ∧
    (scan_task probe false item).1.permit_released = true ∧
    (scan_task probe false item).2 = none ∧
    (scan_task probe true item).2 = some (item.1, item.2, probe item) :=
  ⟨rfl, rfl, rfl, rfl, rfl⟩

end Scout

